import Mathlib

/-!
Verification of the Read the Docs URL resolver
(`readthedocs/core/resolver.py`, class `ResolverBase`).

The Python object graph is embedded shallowly: every project is an entry of
an environment `Env := List Project`, and references between projects
(`main_language_project`, `get_parent_relationship().parent`) are indices
into that list.  Machine strings are Lean `String`s; Python truthiness of
optional values is modelled explicitly.  Django settings are a record
passed to every operation.
-/

namespace RTD

/-- Test whether `needle` is a leading segment of `hay` (character
lists). -/
def beginsWith : List Char → List Char → Bool
  | [], _ => true
  | _ :: _, [] => false
  | a :: as, b :: bs => a == b && beginsWith as bs

/-- Test whether `needle` occurs contiguously inside the list.  Models
Python's `needle in hay` on strings. -/
def hasSub (needle : List Char) : List Char → Bool
  | [] => beginsWith needle []
  | c :: t => beginsWith needle (c :: t) || hasSub needle t

/-- Python `needle in haystack` for strings. -/
def strContains (haystack needle : String) : Bool :=
  hasSub needle.data haystack.data

/-- Python `s.startswith(pre)`, used for `url[:1] != '/'` style tests in
`urllib.parse.urlunparse`. -/
def strStarts (s pre : String) : Bool :=
  beginsWith pre.data s.data

/-- Models `slug.replace('_', '-')` (lines 231 and 238 of the source); for a
one-character pattern Python's `str.replace` is a character map. -/
def underscoreToHyphen (s : String) : String :=
  String.mk (s.data.map (fun c => if c == '_' then '-' else c))

/-- Python `str(x)` on an optional string, as used by `'{}.{}'.format`:
`None` prints as `"None"`. -/
def optStr : Option String → String
  | none => "None"
  | some x => x

/-- Python truthiness of an optional string: `None` and `''` are falsy. -/
def truthyOptS : Option String → Bool
  | none => false
  | some s => s ≠ ""

/-- Python `a or b` where `a` is an optional string and the result is used
as a string. -/
def orTruthyS (a : Option String) (b : String) : String :=
  match a with
  | some s => if s = "" then b else s
  | none => b

/-- A custom domain record (`readthedocs.projects.models.Domain`), reduced
to the fields the resolver reads. -/
structure Domain where
  domain : String
  canonical : Bool
  https : Bool
deriving DecidableEq

/-- Python `a or b` on optional `Domain` objects (model instances are
always truthy). -/
def orTruthyD (a b : Option Domain) : Option Domain :=
  match a with
  | some d => some d
  | none => b

/-- A version record, reduced to the fields the resolver reads. -/
structure Version where
  slug : String
  type : String
deriving DecidableEq

/-- Constant `readthedocs.builds.constants.EXTERNAL`. -/
def EXTERNAL : String := "external"

/-- The object returned by `project.get_parent_relationship()`: the parent
project (an index into the environment) and the subproject alias. -/
structure ProjectRelationship where
  parent : Nat
  «alias» : String
deriving DecidableEq

/-- A project record, reduced to the fields the resolver reads.
`main_language_project` and `parent_relation` reference other projects by
index into the environment. -/
structure Project where
  slug : String
  language : String
  single_version : Bool
  default_version : String
  main_language_project : Option Nat
  parent_relation : Option ProjectRelationship
  domains : List Domain
  versions : List Version
deriving DecidableEq

instance : Inhabited Project :=
  ⟨{ slug := ""
     language := ""
     single_version := false
     default_version := ""
     main_language_project := none
     parent_relation := none
     domains := []
     versions := [] }⟩

/-- The object graph: all projects, referenced by index. -/
abbrev Env := List Project

/-- Dereference a project index (every index used by the Python code points
at an existing object; out-of-range indices fall back to the inhabited
default, which has no relations). -/
def proj (env : Env) (pid : Nat) : Project :=
  (env[pid]?).getD default

/-- Modelled from the spec: `project.get_canonical_custom_domain()`
(readthedocs.projects.models, not under `src/`), per §6
"canonicalCustomDomain() → Domain or absent" and §3 "at most conceptually
one canonical domain per project": the first domain flagged canonical.
This matches the in-source query `domains.filter(canonical=True).first()`
(line 126). -/
def get_canonical_custom_domain (p : Project) : Option Domain :=
  p.domains.find? (fun d => d.canonical)

/-- Modelled from the spec: `project.get_parent_relationship()` (§6
"subprojectRelation() → {parentProject, alias} or absent"). -/
def get_parent_relationship (p : Project) : Option ProjectRelationship :=
  p.parent_relation

/-- The Django settings the resolver reads. -/
structure Settings where
  USE_SUBDOMAIN : Bool
  PUBLIC_DOMAIN : Option String
  PRODUCTION_DOMAIN : String
  RTD_EXTERNAL_VERSION_DOMAIN : String
  PUBLIC_DOMAIN_USES_HTTPS : Bool

/-- The parent pointer followed by both hierarchy walks (lines 114-115 and
217-223): the translation parent if present, else the subproject relation's
parent, else nothing. -/
def nextId (env : Env) (pid : Nat) : Option Nat :=
  match env[pid]? with
  | none => none
  | some p =>
    match p.main_language_project with
    | some m => some m
    | none =>
      match p.parent_relation with
      | some r => some r.parent
      | none => none

/-- Number of in-range project indices not yet visited; the potential of
the canonical-project recursion. -/
def freeCount (env : Env) (visited : List Nat) : Nat :=
  ((Finset.range env.length).filter (fun i => i ∉ visited)).card

lemma freeCount_cons_le (env : Env) (n : Nat) (visited : List Nat) :
    freeCount env (n :: visited) ≤ freeCount env visited := by
  apply Finset.card_le_card
  apply Finset.monotone_filter_right
  intro x hx
  exact fun hmem => hx (List.mem_cons_of_mem _ hmem)

lemma freeCount_cons_lt (env : Env) (n : Nat) (visited : List Nat)
    (hn : n < env.length) (hmem : n ∉ visited) :
    freeCount env (n :: visited) < freeCount env visited := by
  apply Finset.card_lt_card
  rw [Finset.ssubset_iff_of_subset]
  · refine ⟨n, ?_, ?_⟩
    · exact Finset.mem_filter.mpr ⟨Finset.mem_range.mpr hn, hmem⟩
    · intro h
      exact (Finset.mem_filter.mp h).2 (List.mem_cons_self _ _)
  · apply Finset.monotone_filter_right
    intro x hx
    exact fun hm => hx (List.mem_cons_of_mem _ hm)

lemma nextId_none_of_ge (env : Env) (n : Nat) (h : env.length ≤ n) :
    nextId env n = none := by
  unfold nextId
  rw [List.getElem?_eq_none h]

/-- Termination measure of `_get_canonical_project_visited`. -/
def canonicalMeasure (env : Env) (pid : Nat) (visited : List Nat) : Nat :=
  2 * freeCount env visited + (if (nextId env pid).isSome then 1 else 0)

lemma canonicalMeasure_lt (env : Env) (pid : Nat) (visited : List Nat) (n : Nat)
    (h : nextId env pid = some n) (hmem : n ∉ visited) :
    canonicalMeasure env n (n :: visited) < canonicalMeasure env pid visited := by
  unfold canonicalMeasure
  rw [h]
  simp only [Option.isSome_some, if_true]
  by_cases hlt : n < env.length
  · have h1 := freeCount_cons_lt env n visited hlt hmem
    have h2 : (if (nextId env n).isSome then 1 else 0) ≤ 1 := by
      split <;> omega
    omega
  · have h0 : nextId env n = none := nextId_none_of_ge env n (by omega)
    rw [h0]
    have h1 := freeCount_cons_le env n visited
    simp only [Option.isSome_none, Bool.false_eq_true, if_false]
    omega

/-- Source `ResolverBase._get_canonical_project` (lines 198-227): recursive ascent
with a visited set.  `visited` plays the role of the Python `projects` set
and always contains the current project (the Python code adds the current
project on entry; here the seed `[pid]` and every recursive call maintain
that invariant, so the cons happens at the call site). -/
def _get_canonical_project_visited (env : Env) (pid : Nat) (visited : List Nat) : Nat :=
  match h : nextId env pid with
  | none => pid
  | some n =>
    if hmem : n ∈ visited then pid
    else _get_canonical_project_visited env n (n :: visited)
termination_by canonicalMeasure env pid visited
decreasing_by
  exact canonicalMeasure_lt env pid visited n h hmem

/-- Entry point of the ascent: the Python first call seeds
`projects = {project}`. -/
def _get_canonical_project (env : Env) (pid : Nat) : Nat :=
  _get_canonical_project_visited env pid [pid]

/-- Number of recursive calls performed by
`_get_canonical_project_visited` on the same input (instrumentation for
the termination claim; same recursion structure). -/
def _get_canonical_project_steps_visited (env : Env) (pid : Nat) (visited : List Nat) : Nat :=
  match h : nextId env pid with
  | none => 0
  | some n =>
    if hmem : n ∈ visited then 0
    else _get_canonical_project_steps_visited env n (n :: visited) + 1
termination_by canonicalMeasure env pid visited
decreasing_by
  exact canonicalMeasure_lt env pid visited n h hmem

/-- Recursion depth of `_get_canonical_project env pid`. -/
def _get_canonical_project_steps (env : Env) (pid : Nat) : Nat :=
  _get_canonical_project_steps_visited env pid [pid]

/-- Source `ResolverBase._fix_filename` (lines 250-257): strip leading `/`
characters.  The `project` argument is unused by the Python body too. -/
def _fix_filename (_project : Project) (filename : String) : String :=
  String.mk (filename.data.dropWhile (fun c => c == '/'))

/-- Source `ResolverBase._use_subdomain` (lines 270-272). -/
def _use_subdomain (s : Settings) : Bool :=
  s.USE_SUBDOMAIN && s.PUBLIC_DOMAIN.isSome

/-- Source `ResolverBase._use_custom_domain` (lines 259-268). -/
def _use_custom_domain (custom_domain : Option Domain) : Bool :=
  if custom_domain.isSome then true else false

/-- Source `ResolverBase._get_project_subdomain` (lines 236-239). -/
def _get_project_subdomain (s : Settings) (project : Project) : String :=
  underscoreToHyphen project.slug ++ "." ++ optStr s.PUBLIC_DOMAIN

/-- Source `ResolverBase._get_external_subdomain` (lines 229-234). -/
def _get_external_subdomain (s : Settings) (project : Project) (version_slug : String) : String :=
  underscoreToHyphen project.slug ++ "--" ++ version_slug ++ "." ++
    s.RTD_EXTERNAL_VERSION_DOMAIN

/-- Source `ResolverBase._is_external` (lines 241-248): the stored type of the
first version with the given slug, compared to `EXTERNAL`; an absent
version compares unequal. -/
def _is_external (project : Project) (version_slug : String) : Bool :=
  match project.versions.find? (fun v => v.slug == version_slug) with
  | some v => v.type == EXTERNAL
  | none => false

/-- Source `ResolverBase.base_resolve_path` (lines 55-89).  The `.format` call
substitutes values verbatim, so the template assembly is string
concatenation. -/
def base_resolve_path (s : Settings) (project_slug : String) (filename : String)
    (version_slug : String) (language : String) (single_version : Bool)
    (subproject_slug : Option String) (subdomain : Bool) (cname : Option Domain) : String :=
  let url := if subdomain || cname.isSome || _use_subdomain s then "/"
    else "/docs/" ++ project_slug ++ "/"
  let url := if truthyOptS subproject_slug then
      url ++ "projects/" ++ (subproject_slug.getD "") ++ "/"
    else url
  if single_version then url ++ filename
  else url ++ language ++ "/" ++ version_slug ++ "/" ++ filename

/-- The loop state of `ResolverBase.resolve_path` (lines 108-128): the
variables mutated by the `for _ in range(0, 2)` hierarchy walk. -/
structure PathWalkState where
  current_project : Nat
  project_slug : String
  subproject_slug : Option String
  language : String
  cname : Option Domain
deriving DecidableEq

/-- The `for _ in range(0, 2)` hierarchy walk of `resolve_path`
(lines 113-128), as a recursion on the remaining iteration count.
`orig_language` is the outer `project.language`, which the translation
branch assigns (line 120 reads the *original* `project`, not the parent). -/
def resolvePathWalk (env : Env) (orig_language : String) :
    Nat → PathWalkState → PathWalkState
  | 0, st => st
  | Nat.succ k, st =>
    match (proj env st.current_project).main_language_project with
    | some mlp =>
      resolvePathWalk env orig_language k
        { current_project := mlp
          project_slug := (proj env mlp).slug
          subproject_slug := none
          language := orig_language
          cname := st.cname }
    | none =>
      match (proj env st.current_project).parent_relation with
      | some relation =>
        resolvePathWalk env orig_language k
          { current_project := relation.parent
            project_slug := (proj env relation.parent).slug
            subproject_slug := some relation.«alias»
            language := st.language
            cname := (proj env relation.parent).domains.find? (fun d => d.canonical) }
      | none => st

/-- Source `ResolverBase.resolve_path` (lines 91-141). -/
def resolve_path (s : Settings) (env : Env) (pid : Nat) (filename : String)
    (version_slug : Option String) (language : Option String)
    (single_version : Bool) (subdomain : Bool) (cname : Option Domain) : String :=
  let project := proj env pid
  let cname2 := orTruthyD cname (get_canonical_custom_domain project)
  let version_slug2 := orTruthyS version_slug project.default_version
  let language2 := orTruthyS language project.language
  let filename2 := _fix_filename project filename
  let st := resolvePathWalk env project.language 2
    { current_project := pid
      project_slug := project.slug
      subproject_slug := none
      language := language2
      cname := cname2 }
  let single_version2 := project.single_version || single_version
  base_resolve_path s st.project_slug filename2 version_slug2 st.language
    single_version2 st.subproject_slug subdomain st.cname

/-- Source `ResolverBase.resolve_domain` (lines 143-152). -/
def resolve_domain (s : Settings) (env : Env) (pid : Nat) : String :=
  let canonical_project := _get_canonical_project env pid
  match get_canonical_custom_domain (proj env canonical_project) with
  | some domain => domain.domain
  | none =>
    if _use_subdomain s then _get_project_subdomain s (proj env canonical_project)
    else s.PRODUCTION_DOMAIN

/-- Lines 158-161 of `resolve`: `kwargs.get('version_slug')` defaulted with
`project.get_default_version()` only when it `is None`. -/
def resolveVersionSlug (env : Env) (pid : Nat) (version_slug : Option String) : String :=
  match version_slug with
  | none => (proj env pid).default_version
  | some v => v

/-- Lines 162-163 of `resolve`: the caller's `external` argument wins; the
stored version type is consulted only when it is `None`. -/
def resolveExternalFlag (env : Env) (pid : Nat) (version_slug : String)
    (external : Option Bool) : Bool :=
  match external with
  | none => _is_external (proj env pid) version_slug
  | some b => b

/-- Projection used where `resolve` reads `custom_domain.domain` under the
`use_custom_domain` guard (line 172); never reached on `none`. -/
def optDomainName : Option Domain → String
  | some d => d.domain
  | none => ""

/-- Projection `custom_domain.https` as read on line 180, short-circuited by
`use_custom_domain`; never reached on `none`. -/
def optDomainHttps : Option Domain → Bool
  | some d => d.https
  | none => false

/-- Lines 165-176 of `resolve`: the domain selection chain. -/
def resolveChosenDomain (s : Settings) (env : Env) (pid : Nat)
    (version_slug : String) (external : Bool) : String :=
  let canonical_project := _get_canonical_project env pid
  let custom_domain := get_canonical_custom_domain (proj env canonical_project)
  if external then _get_external_subdomain s (proj env canonical_project) version_slug
  else if _use_custom_domain custom_domain then optDomainName custom_domain
  else if _use_subdomain s then _get_project_subdomain s (proj env canonical_project)
  else s.PRODUCTION_DOMAIN

/-- Lines 178-190 of `resolve`: the `use_https_protocol` disjunction.
`settings.PUBLIC_DOMAIN and any([...])` guards the containment tests with
the truthiness of `PUBLIC_DOMAIN`. -/
def resolveUseHttps (s : Settings) (custom_domain : Option Domain)
    (require_https : Bool) (domain : String) : Bool :=
  (_use_custom_domain custom_domain && optDomainHttps custom_domain) ||
  require_https ||
  (s.PUBLIC_DOMAIN_USES_HTTPS && truthyOptS s.PUBLIC_DOMAIN &&
    (strContains domain (optStr s.PUBLIC_DOMAIN) ||
     strContains domain s.RTD_EXTERNAL_VERSION_DOMAIN))

/-- Library call `urllib.parse.urlunparse` with empty params and fragment
as called on line 196, specialised to empty `params` and `fragment`
(CPython `urlunsplit`). -/
def urlunparse (scheme netloc path query : String) : String :=
  let url := if netloc ≠ "" || strStarts path "//" then
      "//" ++ netloc ++ (if path ≠ "" && !strStarts path "/" then "/" ++ path else path)
    else path
  let url := if scheme ≠ "" then scheme ++ ":" ++ url else url
  if query ≠ "" then url ++ "?" ++ query else url

/-- Source `ResolverBase.resolve` (lines 154-196).  The `**kwargs` accepted by the
Python signature and forwarded to `resolve_path` are spelled out as the
optional arguments of `resolve_path`; note that `resolve_path` receives the
*original* `version_slug` argument, not the locally defaulted one. -/
def resolve (s : Settings) (env : Env) (pid : Nat) (require_https : Bool)
    (filename : String) (query_params : String) (external : Option Bool)
    (version_slug : Option String) (language : Option String)
    (single_version : Bool) (subdomain : Bool) (cname : Option Domain) : String :=
  let version_slug2 := resolveVersionSlug env pid version_slug
  let external2 := resolveExternalFlag env pid version_slug2 external
  let custom_domain := get_canonical_custom_domain (proj env (_get_canonical_project env pid))
  let domain := resolveChosenDomain s env pid version_slug2 external2
  let protocol := if resolveUseHttps s custom_domain require_https domain
    then "https" else "http"
  let path := resolve_path s env pid filename version_slug language
    single_version subdomain cname
  urlunparse protocol domain path query_params

/-- The step relation of the hierarchy graph: `b` is the parent the
resolver walks to from `a`. -/
def stepRel (env : Env) (a b : Nat) : Prop := nextId env a = some b

/-- The translation/subproject graph has no (nontrivial) cycle. -/
def Acyclic (env : Env) : Prop :=
  ∀ a, ¬ Relation.TransGen (stepRel env) a a

/-- Invariant of the visited set: everything in it reaches the current
project along parent pointers. -/
def GoodVisited (env : Env) (pid : Nat) (visited : List Nat) : Prop :=
  ∀ v ∈ visited, Relation.ReflTransGen (stepRel env) v pid

/-- Pure iteration of the parent pointer, `k` times, stopping at a
projectless node — the project reached by the (bounded) hierarchy walk of
`resolve_path` when `k = 2`. -/
def walkN (env : Env) : Nat → Nat → Nat
  | 0, pid => pid
  | Nat.succ k, pid =>
    match nextId env pid with
    | some n => walkN env k n
    | none => pid

/-- Modelled from the spec: the https condition of §4.4 exactly as the
specification words it — "(a) a custom domain is in use and that domain is
configured to require https; (b) the caller explicitly requires https;
(c) the platform enforces https for its public domain AND the resolved
domain contains either the platform's public-domain suffix or the
external-version-domain suffix" — with no further guard on the public
domain being configured. -/
def claimedHttpsCondition (s : Settings) (custom_domain : Option Domain)
    (require_https : Bool) (domain : String) : Prop :=
  (∃ d, custom_domain = some d ∧ d.https = true) ∨
  require_https = true ∨
  (s.PUBLIC_DOMAIN_USES_HTTPS = true ∧
    ((∃ pd, s.PUBLIC_DOMAIN = some pd ∧ strContains domain pd = true) ∨
     strContains domain s.RTD_EXTERNAL_VERSION_DOMAIN = true))

/-- A decidable sufficient condition for acyclicity: every parent pointer
goes to a strictly smaller index. -/
def decreasingNextB (env : Env) : Bool :=
  (List.range env.length).all
    (fun a => ((nextId env a).map (fun b => decide (b < a))).getD true)

/-- The loop state reached by `resolve_path`'s two-iteration hierarchy
walk, starting from the Step-1 defaults of lines 102-110. -/
def resolvePathWalkResult (env : Env) (pid : Nat) (language : Option String)
    (cname : Option Domain) : PathWalkState :=
  resolvePathWalk env (proj env pid).language 2
    { current_project := pid
      project_slug := (proj env pid).slug
      subproject_slug := none
      language := orTruthyS language (proj env pid).language
      cname := orTruthyD cname (get_canonical_custom_domain (proj env pid)) }

/-- A plain project used as base of the concrete test environments. -/
def pBase : Project :=
  { slug := "pip"
    language := "en"
    single_version := false
    default_version := "latest"
    main_language_project := none
    parent_relation := none
    domains := []
    versions := [] }

/-- Acyclic environment with a three-hop chain
`3 -(subproject)-> 2 -(translation)-> 1 -(subproject)-> 0`. -/
def chainEnv : Env :=
  [ { pBase with slug := "root" },
    { pBase with slug := "one", parent_relation := some ⟨0, "a"⟩ },
    { pBase with slug := "two", main_language_project := some 1 },
    { pBase with slug := "three", parent_relation := some ⟨2, "c"⟩ } ]

/-- Cyclic environment: two projects that are translations of each other. -/
def cycleEnv : Env :=
  [ { pBase with slug := "a", main_language_project := some 1 },
    { pBase with slug := "b", main_language_project := some 0 } ]

/-- Development-style settings: no subdomain serving, no public domain. -/
def devSettings : Settings :=
  { USE_SUBDOMAIN := false
    PUBLIC_DOMAIN := none
    PRODUCTION_DOMAIN := "readthedocs.org"
    RTD_EXTERNAL_VERSION_DOMAIN := "ext.dev"
    PUBLIC_DOMAIN_USES_HTTPS := false }

/-- Production-style settings with subdomain serving enabled. -/
def subSettings : Settings :=
  { USE_SUBDOMAIN := true
    PUBLIC_DOMAIN := some "readthedocs.io"
    PRODUCTION_DOMAIN := "readthedocs.org"
    RTD_EXTERNAL_VERSION_DOMAIN := "ext.dev"
    PUBLIC_DOMAIN_USES_HTTPS := true }

/-- One project with a canonical custom domain. -/
def custDomain : Domain := { domain := "docs.example.com", canonical := true, https := true }

def custEnv : Env := [ { pBase with domains := [custDomain] } ]

/-- One project with no custom domain and no relations. -/
def plainEnv : Env := [ pBase ]

/-- Settings whose external-version domain matches the C8 example. -/
def c8Settings : Settings :=
  { USE_SUBDOMAIN := false
    PUBLIC_DOMAIN := none
    PRODUCTION_DOMAIN := "readthedocs.org"
    RTD_EXTERNAL_VERSION_DOMAIN := "build.example.com"
    PUBLIC_DOMAIN_USES_HTTPS := false }

def c8Project : Project := { pBase with slug := "my_project" }

/-- One project whose default version is stored as external. -/
def extEnv : Env :=
  [ { pBase with default_version := "pr-9", versions := [⟨"pr-9", "external"⟩] } ]

/-- Settings exhibiting the missing guard of claim C4: https enforcement is
on, but no public domain is configured. -/
def c4Settings : Settings :=
  { USE_SUBDOMAIN := false
    PUBLIC_DOMAIN := none
    PRODUCTION_DOMAIN := "readthedocs.org"
    RTD_EXTERNAL_VERSION_DOMAIN := "ext.dev"
    PUBLIC_DOMAIN_USES_HTTPS := true }

def c4Env : Env :=
  [ { pBase with default_version := "pr-9", versions := [⟨"pr-9", "external"⟩] } ]

/-- Environment for claim C3: a child subproject owning a canonical custom
domain, while its parent has none. -/
def c3Env : Env :=
  [ { pBase with slug := "par" },
    { pBase with
      slug := "chi"
      parent_relation := some ⟨0, "sub"⟩
      domains := [{ domain := "chi.example.com", canonical := true, https := false }] } ]

lemma canonical_visited_none (env : Env) (pid : Nat) (visited : List Nat)
    (h : nextId env pid = none) :
    _get_canonical_project_visited env pid visited = pid := by
  unfold _get_canonical_project_visited
  split
  · rfl
  · rename_i n hn
    rw [h] at hn
    cases hn

lemma canonical_visited_mem (env : Env) (pid : Nat) (visited : List Nat) (n : Nat)
    (h : nextId env pid = some n) (hm : n ∈ visited) :
    _get_canonical_project_visited env pid visited = pid := by
  unfold _get_canonical_project_visited
  split
  · rfl
  · rename_i n' hn
    rw [h] at hn
    cases hn
    rw [dif_pos hm]

lemma canonical_visited_step (env : Env) (pid : Nat) (visited : List Nat) (n : Nat)
    (h : nextId env pid = some n) (hm : n ∉ visited) :
    _get_canonical_project_visited env pid visited =
      _get_canonical_project_visited env n (n :: visited) := by
  conv_lhs => unfold _get_canonical_project_visited
  split
  · rename_i hn
    rw [h] at hn
    cases hn
  · rename_i n' hn
    rw [h] at hn
    cases hn
    rw [dif_neg hm]

lemma steps_visited_none (env : Env) (pid : Nat) (visited : List Nat)
    (h : nextId env pid = none) :
    _get_canonical_project_steps_visited env pid visited = 0 := by
  unfold _get_canonical_project_steps_visited
  split
  · rfl
  · rename_i n hn
    rw [h] at hn
    cases hn

lemma steps_visited_mem (env : Env) (pid : Nat) (visited : List Nat) (n : Nat)
    (h : nextId env pid = some n) (hm : n ∈ visited) :
    _get_canonical_project_steps_visited env pid visited = 0 := by
  unfold _get_canonical_project_steps_visited
  split
  · rfl
  · rename_i n' hn
    rw [h] at hn
    cases hn
    rw [dif_pos hm]

lemma steps_visited_step (env : Env) (pid : Nat) (visited : List Nat) (n : Nat)
    (h : nextId env pid = some n) (hm : n ∉ visited) :
    _get_canonical_project_steps_visited env pid visited =
      _get_canonical_project_steps_visited env n (n :: visited) + 1 := by
  conv_lhs => unfold _get_canonical_project_steps_visited
  split
  · rename_i hn
    rw [h] at hn
    cases hn
  · rename_i n' hn
    rw [h] at hn
    cases hn
    rw [dif_neg hm]

lemma goodVisited_self (env : Env) (pid : Nat) : GoodVisited env pid [pid] := by
  intro v hv
  rw [List.mem_singleton] at hv
  subst hv
  exact Relation.ReflTransGen.refl

lemma goodVisited_cons (env : Env) (pid n : Nat) (visited : List Nat)
    (hg : GoodVisited env pid visited) (hstep : stepRel env pid n) :
    GoodVisited env n (n :: visited) := by
  intro v hv
  rcases List.mem_cons.mp hv with h | h
  · subst h
    exact Relation.ReflTransGen.refl
  · exact Relation.ReflTransGen.tail (hg v h) hstep

lemma not_mem_visited (env : Env) (pid n : Nat) (visited : List Nat)
    (hacyc : Acyclic env) (hg : GoodVisited env pid visited)
    (hstep : stepRel env pid n) : n ∉ visited := by
  intro hmem
  exact hacyc n (Relation.TransGen.tail' (hg n hmem) hstep)

/-- In an acyclic hierarchy the ascent only ever stops at a project with no
parent: the visited-set guard never fires. -/
lemma canonical_visited_terminal (env : Env) (hacyc : Acyclic env) :
    ∀ pid visited, GoodVisited env pid visited →
      nextId env (_get_canonical_project_visited env pid visited) = none := by
  intro pid visited
  induction pid, visited using _get_canonical_project_visited.induct env with
  | case1 pid visited h =>
    intro _
    rw [canonical_visited_none env pid visited h]
    exact h
  | case2 pid visited n h hm =>
    intro hg
    exact absurd hm (not_mem_visited env pid n visited hacyc hg h)
  | case3 pid visited n h hm ih =>
    intro hg
    rw [canonical_visited_step env pid visited n h hm]
    exact ih (goodVisited_cons env pid n visited hg h)

/-- In an acyclic hierarchy the result of the ascent does not depend on the
(invariant-respecting) visited set. -/
lemma canonical_visited_irrelevant (env : Env) (hacyc : Acyclic env) :
    ∀ pid v₁, GoodVisited env pid v₁ → ∀ v₂, GoodVisited env pid v₂ →
      _get_canonical_project_visited env pid v₁ =
        _get_canonical_project_visited env pid v₂ := by
  intro pid v₁
  induction pid, v₁ using _get_canonical_project_visited.induct env with
  | case1 pid v₁ h =>
    intro _ v₂ _
    rw [canonical_visited_none env pid v₁ h, canonical_visited_none env pid v₂ h]
  | case2 pid v₁ n h hm =>
    intro hg _ _
    exact absurd hm (not_mem_visited env pid n v₁ hacyc hg h)
  | case3 pid v₁ n h hm ih =>
    intro hg v₂ hg2
    have hm2 : n ∉ v₂ := not_mem_visited env pid n v₂ hacyc hg2 h
    rw [canonical_visited_step env pid v₁ n h hm,
      canonical_visited_step env pid v₂ n h hm2]
    exact ih (goodVisited_cons env pid n v₁ hg h) (n :: v₂)
      (goodVisited_cons env pid n v₂ hg2 h)

/-- Stepping to the parent does not change the canonical project (acyclic
case). -/
lemma canonical_step (env : Env) (hacyc : Acyclic env) (pid n : Nat)
    (h : stepRel env pid n) :
    _get_canonical_project env pid = _get_canonical_project env n := by
  unfold _get_canonical_project
  have hm : n ∉ [pid] :=
    not_mem_visited env pid n [pid] hacyc (goodVisited_self env pid) h
  rw [canonical_visited_step env pid [pid] n h hm]
  exact canonical_visited_irrelevant env hacyc n (n :: [pid])
    (goodVisited_cons env pid n [pid] (goodVisited_self env pid) h)
    [n] (goodVisited_self env n)

lemma canonical_walkN (env : Env) (hacyc : Acyclic env) :
    ∀ k pid, _get_canonical_project env pid =
      _get_canonical_project env (walkN env k pid) := by
  intro k
  induction k with
  | zero => intro pid; rfl
  | succ k ih =>
    intro pid
    cases h : nextId env pid with
    | none => simp [walkN, h]
    | some n =>
      have hw : walkN env (k + 1) pid = walkN env k n := by simp [walkN, h]
      rw [hw, canonical_step env hacyc pid n h]
      exact ih n

lemma default_project_mlp : (default : Project).main_language_project = none := rfl

lemma default_project_rel : (default : Project).parent_relation = none := rfl

/-- The `resolve_path` walk moves along exactly the same parent pointer as
the canonical ascent: its current project after `k` iterations is
`walkN env k`. -/
lemma walk_current (env : Env) (la : String) :
    ∀ k st, (resolvePathWalk env la k st).current_project =
      walkN env k st.current_project := by
  intro k
  induction k with
  | zero => intro st; rfl
  | succ k ih =>
    intro st
    cases hp : env[st.current_project]? with
    | none =>
      have h1 : proj env st.current_project = default := by simp [proj, hp]
      have h2 : nextId env st.current_project = none := by simp [nextId, hp]
      simp [resolvePathWalk, walkN, h1, h2, default_project_mlp, default_project_rel]
    | some p =>
      have h1 : proj env st.current_project = p := by simp [proj, hp]
      cases hm : p.main_language_project with
      | some m =>
        have h2 : nextId env st.current_project = some m := by
          simp [nextId, hp, hm]
        simp [resolvePathWalk, walkN, h1, hm, h2, ih]
      | none =>
        cases hr : p.parent_relation with
        | some r =>
          have h2 : nextId env st.current_project = some r.parent := by
            simp [nextId, hp, hm, hr]
          simp [resolvePathWalk, walkN, h1, hm, hr, h2, ih]
        | none =>
          have h2 : nextId env st.current_project = none := by
            simp [nextId, hp, hm, hr]
          simp [resolvePathWalk, walkN, h1, hm, hr, h2]

/-- The recursion depth of the ascent is bounded by the number of unvisited
in-range projects plus one. -/
lemma steps_visited_le (env : Env) :
    ∀ pid visited, _get_canonical_project_steps_visited env pid visited ≤
      freeCount env visited + 1 := by
  intro pid visited
  induction pid, visited using _get_canonical_project_steps_visited.induct env with
  | case1 pid visited h =>
    rw [steps_visited_none env pid visited h]
    omega
  | case2 pid visited n h hm =>
    rw [steps_visited_mem env pid visited n h hm]
    omega
  | case3 pid visited n h hm ih =>
    rw [steps_visited_step env pid visited n h hm]
    by_cases hlt : n < env.length
    · have hfree := freeCount_cons_lt env n visited hlt hm
      omega
    · have h0 : nextId env n = none := nextId_none_of_ge env n (by omega)
      rw [steps_visited_none env n (n :: visited) h0]
      omega

lemma freeCount_singleton (env : Env) (pid : Nat) (h : pid < env.length) :
    freeCount env [pid] = env.length - 1 := by
  unfold freeCount
  have hset : (Finset.range env.length).filter (fun i => i ∉ [pid]) =
      (Finset.range env.length).erase pid := by
    ext x
    simp only [Finset.mem_filter, Finset.mem_erase, List.mem_singleton]
    tauto
  rw [hset, Finset.card_erase_of_mem (Finset.mem_range.mpr h), Finset.card_range]

lemma stepRel_lt_length (env : Env) (a b : Nat) (h : stepRel env a b) :
    a < env.length := by
  by_contra hc
  rw [stepRel, nextId_none_of_ge env a (by omega)] at h
  cases h

lemma transGen_rank (env : Env) (f : Nat → Nat)
    (hf : ∀ a b, stepRel env a b → f b < f a) :
    ∀ a b, Relation.TransGen (stepRel env) a b → f b < f a := by
  intro a b h
  induction h with
  | single hs => exact hf _ _ hs
  | tail _ hs ih => exact lt_trans (hf _ _ hs) ih

lemma acyclic_of_decreasingNextB (env : Env) (h : decreasingNextB env = true) :
    Acyclic env := by
  have hf : ∀ a b, stepRel env a b → b < a := by
    intro a b hab
    have ha : a < env.length := stepRel_lt_length env a b hab
    have hall := List.all_eq_true.mp h a (List.mem_range.mpr ha)
    rw [stepRel] at hab
    rw [hab] at hall
    simpa using hall
  intro a ha
  exact lt_irrefl a (transGen_rank env (fun x => x) hf a a ha)

lemma strAppend_assoc (a b c : String) : a ++ b ++ c = a ++ (b ++ c) := by
  rcases a with ⟨as⟩
  rcases b with ⟨bs⟩
  rcases c with ⟨cs⟩
  show String.mk ((as ++ bs) ++ cs) = String.mk (as ++ (bs ++ cs))
  rw [List.append_assoc]

lemma acyclic_chainEnv : Acyclic chainEnv :=
  acyclic_of_decreasingNextB chainEnv (by decide)

/-- C6: `canonicalProject` is idempotent on every acyclic
translation/subproject graph: applied to its own result it returns that
result unchanged. -/
theorem canonical_project_idempotent (env : Env) (pid : Nat) (hacyc : Acyclic env) :
    _get_canonical_project env (_get_canonical_project env pid) =
      _get_canonical_project env pid := by
  have hterm := canonical_visited_terminal env hacyc pid [pid] (goodVisited_self env pid)
  exact canonical_visited_none env _ _ hterm

theorem canonical_project_idempotent_witness :
    Acyclic chainEnv ∧
    _get_canonical_project chainEnv (_get_canonical_project chainEnv 3) =
      _get_canonical_project chainEnv 3 :=
  ⟨acyclic_chainEnv, canonical_project_idempotent chainEnv 3 acyclic_chainEnv⟩

/-- C7: `canonicalProject` terminates on every input, cycles included: its
recursion depth is at most the number of projects (so at most `k` on a
`k`-cycle), and whenever the computed next project is already in the
visited set it stops immediately, returning the current project, with no
error signalled. -/
theorem canonical_project_cycle_terminates (env : Env) (pid q n : Nat)
    (vis : List Nat) (hpid : pid < env.length)
    (hq : nextId env q = some n) (hn : n ∈ vis) :
    _get_canonical_project_steps env pid ≤ env.length ∧
    _get_canonical_project_visited env q vis = q := by
  constructor
  · have h1 := steps_visited_le env pid [pid]
    rw [freeCount_singleton env pid hpid] at h1
    have h2 : _get_canonical_project_steps env pid =
        _get_canonical_project_steps_visited env pid [pid] := rfl
    omega
  · exact canonical_visited_mem env q vis n hq hn

theorem canonical_project_cycle_terminates_witness :
    (0 < cycleEnv.length ∧ nextId cycleEnv 1 = some 0 ∧ (0 : Nat) ∈ [1, 0]) ∧
    (_get_canonical_project_steps cycleEnv 0 ≤ cycleEnv.length ∧
     _get_canonical_project_visited cycleEnv 1 [1, 0] = 1) :=
  ⟨⟨by decide, by decide, by decide⟩,
   canonical_project_cycle_terminates cycleEnv 0 1 0 [1, 0]
     (by decide) (by decide) (by decide)⟩

/-- C2: the hierarchy walk of `resolve_path` is the two-fold iteration of
the parent pointer (`walkN env 2`); when that walk already sits at a
parentless project it coincides with the unbounded ascent
`_get_canonical_project`, and whenever a third hop would still be possible
(hierarchy deeper than two) it differs from the unbounded ascent. -/
theorem resolve_path_two_hop_limit (env : Env) (pid : Nat) (la sl ll : String)
    (su : Option String) (cn : Option Domain) (hacyc : Acyclic env) :
    (resolvePathWalk env la 2 ⟨pid, sl, su, ll, cn⟩).current_project =
      walkN env 2 pid ∧
    (nextId env (walkN env 2 pid) = none →
      walkN env 2 pid = _get_canonical_project env pid) ∧
    (nextId env (walkN env 2 pid) ≠ none →
      walkN env 2 pid ≠ _get_canonical_project env pid) := by
  refine ⟨walk_current env la 2 ⟨pid, sl, su, ll, cn⟩, ?_, ?_⟩
  · intro hnone
    rw [canonical_walkN env hacyc 2 pid]
    exact (canonical_visited_none env (walkN env 2 pid) [walkN env 2 pid] hnone).symm
  · intro hsome heq
    have hterm : nextId env (_get_canonical_project env pid) = none :=
      canonical_visited_terminal env hacyc pid [pid] (goodVisited_self env pid)
    rw [← heq] at hterm
    exact hsome hterm

theorem resolve_path_two_hop_limit_witness :
    Acyclic chainEnv ∧
    ((resolvePathWalk chainEnv "en" 2 ⟨3, "three", none, "en", none⟩).current_project =
        walkN chainEnv 2 3 ∧
      (nextId chainEnv (walkN chainEnv 2 3) = none →
        walkN chainEnv 2 3 = _get_canonical_project chainEnv 3) ∧
      (nextId chainEnv (walkN chainEnv 2 3) ≠ none →
        walkN chainEnv 2 3 ≠ _get_canonical_project chainEnv 3)) :=
  ⟨acyclic_chainEnv,
   resolve_path_two_hop_limit chainEnv 3 "en" "three" "en" none none acyclic_chainEnv⟩

lemma canonical_custEnv : _get_canonical_project custEnv 0 = 0 :=
  canonical_visited_none custEnv 0 [0] (by decide)

lemma canonical_plainEnv : _get_canonical_project plainEnv 0 = 0 :=
  canonical_visited_none plainEnv 0 [0] (by decide)

/-- C1: `resolve`'s domain selection follows the strict priority
external > canonical custom domain > generated subdomain > production
domain, the external case bypassing the rest entirely, and
`resolve_domain` follows the same chain without the external case. -/
theorem resolve_selects_domain_by_priority (s : Settings) (env : Env) (pid : Nat)
    (vslug : String) (ext : Bool) (d : Domain) :
    (ext = true → resolveChosenDomain s env pid vslug ext =
      _get_external_subdomain s (proj env (_get_canonical_project env pid)) vslug) ∧
    (ext = false →
      get_canonical_custom_domain (proj env (_get_canonical_project env pid)) = some d →
      resolveChosenDomain s env pid vslug ext = d.domain) ∧
    (ext = false →
      get_canonical_custom_domain (proj env (_get_canonical_project env pid)) = none →
      _use_subdomain s = true →
      resolveChosenDomain s env pid vslug ext =
        _get_project_subdomain s (proj env (_get_canonical_project env pid))) ∧
    (ext = false →
      get_canonical_custom_domain (proj env (_get_canonical_project env pid)) = none →
      _use_subdomain s = false →
      resolveChosenDomain s env pid vslug ext = s.PRODUCTION_DOMAIN) ∧
    (get_canonical_custom_domain (proj env (_get_canonical_project env pid)) = some d →
      resolve_domain s env pid = d.domain) ∧
    (get_canonical_custom_domain (proj env (_get_canonical_project env pid)) = none →
      _use_subdomain s = true →
      resolve_domain s env pid =
        _get_project_subdomain s (proj env (_get_canonical_project env pid))) ∧
    (get_canonical_custom_domain (proj env (_get_canonical_project env pid)) = none →
      _use_subdomain s = false →
      resolve_domain s env pid = s.PRODUCTION_DOMAIN) := by
  refine ⟨?_, ?_, ?_, ?_, ?_, ?_, ?_⟩
  · intro h
    simp [resolveChosenDomain, h]
  · intro h hd
    simp [resolveChosenDomain, h, hd, _use_custom_domain, optDomainName]
  · intro h hd hs
    simp [resolveChosenDomain, h, hd, hs, _use_custom_domain]
  · intro h hd hs
    simp [resolveChosenDomain, h, hd, hs, _use_custom_domain]
  · intro hd
    simp [resolve_domain, hd]
  · intro hd hs
    simp [resolve_domain, hd, hs]
  · intro hd hs
    simp [resolve_domain, hd, hs]

theorem resolve_selects_domain_by_priority_witness :
    (resolveChosenDomain subSettings plainEnv 0 "v" true =
      _get_external_subdomain subSettings (proj plainEnv (_get_canonical_project plainEnv 0)) "v") ∧
    (resolveChosenDomain subSettings custEnv 0 "v" false = custDomain.domain) ∧
    (resolveChosenDomain subSettings plainEnv 0 "v" false =
      _get_project_subdomain subSettings (proj plainEnv (_get_canonical_project plainEnv 0))) ∧
    (resolveChosenDomain devSettings plainEnv 0 "v" false = devSettings.PRODUCTION_DOMAIN) ∧
    (resolve_domain subSettings custEnv 0 = custDomain.domain) ∧
    (resolve_domain subSettings plainEnv 0 =
      _get_project_subdomain subSettings (proj plainEnv (_get_canonical_project plainEnv 0))) ∧
    (resolve_domain devSettings plainEnv 0 = devSettings.PRODUCTION_DOMAIN) :=
  ⟨(resolve_selects_domain_by_priority subSettings plainEnv 0 "v" true custDomain).1 rfl,
   (resolve_selects_domain_by_priority subSettings custEnv 0 "v" false custDomain).2.1 rfl
     (by rw [canonical_custEnv]; rfl),
   (resolve_selects_domain_by_priority subSettings plainEnv 0 "v" false custDomain).2.2.1 rfl
     (by rw [canonical_plainEnv]; rfl) rfl,
   (resolve_selects_domain_by_priority devSettings plainEnv 0 "v" false custDomain).2.2.2.1 rfl
     (by rw [canonical_plainEnv]; rfl) rfl,
   (resolve_selects_domain_by_priority subSettings custEnv 0 "v" false custDomain).2.2.2.2.1
     (by rw [canonical_custEnv]; rfl),
   (resolve_selects_domain_by_priority subSettings plainEnv 0 "v" false custDomain).2.2.2.2.2.1
     (by rw [canonical_plainEnv]; rfl) rfl,
   (resolve_selects_domain_by_priority devSettings plainEnv 0 "v" false custDomain).2.2.2.2.2.2
     (by rw [canonical_plainEnv]; rfl) rfl⟩

/-- C10: the caller-supplied `external` argument overrides the stored
version type — `some b` is used as given, the stored type (looked up by
version slug) is consulted only on `none` — and the domain chain follows
the flag alone: `false` selects the custom-domain/subdomain/production
chain and `true` the external hostname, regardless of the stored type. -/
theorem resolve_external_argument_precedence (s : Settings) (env : Env) (pid : Nat)
    (vslug : String) (b : Bool) :
    resolveExternalFlag env pid vslug (some b) = b ∧
    resolveExternalFlag env pid vslug none = _is_external (proj env pid) vslug ∧
    resolveChosenDomain s env pid vslug false =
      (match get_canonical_custom_domain (proj env (_get_canonical_project env pid)) with
       | some d => d.domain
       | none =>
         if _use_subdomain s then
           _get_project_subdomain s (proj env (_get_canonical_project env pid))
         else s.PRODUCTION_DOMAIN) ∧
    resolveChosenDomain s env pid vslug true =
      _get_external_subdomain s (proj env (_get_canonical_project env pid)) vslug := by
  refine ⟨rfl, rfl, ?_, rfl⟩
  cases h : get_canonical_custom_domain (proj env (_get_canonical_project env pid)) with
  | some d => simp [resolveChosenDomain, h, _use_custom_domain, optDomainName]
  | none => simp [resolveChosenDomain, h, _use_custom_domain]

lemma canonical_extEnv : _get_canonical_project extEnv 0 = 0 :=
  canonical_visited_none extEnv 0 [0] (by decide)

/-- C8: for a version whose stored type is external, the resolved hostname
is the canonical project's slug with underscores replaced by hyphens,
`--`, the version slug, a dot, and the external-version domain; in
particular slug `my_project`, version `pr-42` and domain
`build.example.com` give `my-project--pr-42.build.example.com`. -/
theorem resolve_external_domain_format (s : Settings) (env : Env) (pid : Nat)
    (vslug : String) (hext : _is_external (proj env pid) vslug = true) :
    resolveChosenDomain s env pid vslug (resolveExternalFlag env pid vslug none) =
      underscoreToHyphen (proj env (_get_canonical_project env pid)).slug ++ "--" ++
        vslug ++ "." ++ s.RTD_EXTERNAL_VERSION_DOMAIN ∧
    _get_external_subdomain c8Settings c8Project "pr-42" =
      "my-project--pr-42.build.example.com" := by
  constructor
  · simp [resolveChosenDomain, resolveExternalFlag, hext, _get_external_subdomain]
  · rfl

theorem resolve_external_domain_format_witness :
    _is_external (proj extEnv 0) "pr-9" = true ∧
    (resolveChosenDomain c8Settings extEnv 0 "pr-9"
        (resolveExternalFlag extEnv 0 "pr-9" none) =
      underscoreToHyphen (proj extEnv (_get_canonical_project extEnv 0)).slug ++ "--" ++
        "pr-9" ++ "." ++ c8Settings.RTD_EXTERNAL_VERSION_DOMAIN ∧
     _get_external_subdomain c8Settings c8Project "pr-42" =
      "my-project--pr-42.build.example.com") :=
  ⟨by decide, resolve_external_domain_format c8Settings extEnv 0 "pr-9" (by decide)⟩

lemma canonical_c4Env : _get_canonical_project c4Env 0 = 0 :=
  canonical_visited_none c4Env 0 [0] (by decide)

/-- C4 counterexample: with https enforcement on but no public domain
configured, an external build's resolved domain contains the
external-version-domain suffix, so the claim's condition (c) holds — yet
the code short-circuits on the falsy `PUBLIC_DOMAIN` and serves `http`. -/
theorem resolve_https_claim_counterexample :
    claimedHttpsCondition c4Settings
      (get_canonical_custom_domain (proj c4Env (_get_canonical_project c4Env 0)))
      false (resolveChosenDomain c4Settings c4Env 0 "pr-9" true) ∧
    resolveUseHttps c4Settings
      (get_canonical_custom_domain (proj c4Env (_get_canonical_project c4Env 0)))
      false (resolveChosenDomain c4Settings c4Env 0 "pr-9" true) = false ∧
    resolve c4Settings c4Env 0 false "" "" none none none false false none =
      "http://pip--pr-9.ext.dev/docs/pip/en/pr-9/" := by
  have hdom : resolveChosenDomain c4Settings c4Env 0 "pr-9" true = "pip--pr-9.ext.dev" := by
    simp only [resolveChosenDomain]
    rw [canonical_c4Env]
    rfl
  have hcust : get_canonical_custom_domain (proj c4Env (_get_canonical_project c4Env 0)) =
      none := by
    rw [canonical_c4Env]
    rfl
  have hvs : resolveVersionSlug c4Env 0 none = "pr-9" := rfl
  have hfl : resolveExternalFlag c4Env 0 "pr-9" none = true := rfl
  refine ⟨?_, ?_, ?_⟩
  · rw [hdom, hcust]
    exact Or.inr (Or.inr ⟨rfl, Or.inr (by decide)⟩)
  · rw [hdom, hcust]
    decide
  · simp only [resolve, hvs, hfl, hdom, hcust]
    rfl

/-- C4 amended: `https` is chosen iff a custom domain is in use with its
https flag set, or the caller required https, or the platform enforces
https for its public domain *and a (non-empty) public domain is
configured* and the resolved domain contains the public-domain suffix or
the external-version-domain suffix. -/
theorem resolve_https_iff_amended (s : Settings) (cd : Option Domain) (rq : Bool)
    (dom : String) :
    resolveUseHttps s cd rq dom = true ↔
      ((∃ d, cd = some d ∧ d.https = true) ∨ rq = true ∨
       (s.PUBLIC_DOMAIN_USES_HTTPS = true ∧
        ∃ pd, s.PUBLIC_DOMAIN = some pd ∧ pd ≠ "" ∧
          (strContains dom pd = true ∨
           strContains dom s.RTD_EXTERNAL_VERSION_DOMAIN = true))) := by
  cases cd with
  | none =>
    cases hpd : s.PUBLIC_DOMAIN with
    | none =>
      simp [resolveUseHttps, _use_custom_domain, optDomainHttps, truthyOptS, optStr, hpd]
    | some pd =>
      simp [resolveUseHttps, _use_custom_domain, optDomainHttps, truthyOptS, optStr, hpd,
        and_assoc]
  | some d =>
    cases hpd : s.PUBLIC_DOMAIN with
    | none =>
      simp [resolveUseHttps, _use_custom_domain, optDomainHttps, truthyOptS, optStr, hpd]
    | some pd =>
      simp only [resolveUseHttps, _use_custom_domain, optDomainHttps, truthyOptS, optStr,
        hpd, Option.isSome_some, if_true, Bool.true_and, Bool.or_eq_true,
        Bool.and_eq_true, decide_eq_true_eq, Option.some.injEq, exists_eq_left']
      tauto

/-- Rewrite of `base_resolve_path` as the concatenation of its three path segments. -/
lemma base_resolve_path_shape (s : Settings) (ps fn vs la : String) (sv : Bool)
    (sub : Option String) (sd : Bool) (cn : Option Domain) :
    base_resolve_path s ps fn vs la sv sub sd cn =
      (if sd || cn.isSome || _use_subdomain s then "/" else "/docs/" ++ ps ++ "/") ++
      (if truthyOptS sub then "projects/" ++ sub.getD "" ++ "/" else "") ++
      (if sv then fn else la ++ "/" ++ vs ++ "/" ++ fn) := by
  unfold base_resolve_path
  cases h1 : truthyOptS sub <;> cases sv <;>
    simp [h1, String.append_empty, strAppend_assoc]

/-- C5: the resolved path is exactly root (`/` when a subdomain or cname is
in effect or the platform serves under subdomains, else
`/docs/{project_slug}/`), then `projects/{alias}/` when a subproject alias
is pending, then `{filename}` when single-version and
`{language}/{version_slug}/{filename}` otherwise, where single-version is
true iff the original project is single-version or the caller passed
true. -/
theorem resolve_path_template_shape (s : Settings) (env : Env) (pid : Nat)
    (fn : String) (vs lang : Option String) (sv sd : Bool) (cn : Option Domain) :
    resolve_path s env pid fn vs lang sv sd cn =
      (if sd || (resolvePathWalkResult env pid lang cn).cname.isSome || _use_subdomain s
        then "/"
        else "/docs/" ++ (resolvePathWalkResult env pid lang cn).project_slug ++ "/") ++
      (if truthyOptS (resolvePathWalkResult env pid lang cn).subproject_slug
        then "projects/" ++ (resolvePathWalkResult env pid lang cn).subproject_slug.getD "" ++ "/"
        else "") ++
      (if (proj env pid).single_version || sv
        then _fix_filename (proj env pid) fn
        else (resolvePathWalkResult env pid lang cn).language ++ "/" ++
          orTruthyS vs (proj env pid).default_version ++ "/" ++
          _fix_filename (proj env pid) fn) := by
  have hb : resolve_path s env pid fn vs lang sv sd cn =
      base_resolve_path s (resolvePathWalkResult env pid lang cn).project_slug
        (_fix_filename (proj env pid) fn)
        (orTruthyS vs (proj env pid).default_version)
        (resolvePathWalkResult env pid lang cn).language
        ((proj env pid).single_version || sv)
        (resolvePathWalkResult env pid lang cn).subproject_slug sd
        (resolvePathWalkResult env pid lang cn).cname := rfl
  rw [hb, base_resolve_path_shape]

/-- C3 counterexample: the Step-1 cname defaults to the child's canonical
custom domain, the relation parent has no canonical domain, and the walk
ends with `cname = none` — the previously established cname is *not*
retained (line 126 assigns unconditionally) — observably turning the path
root into the `/docs/...` development form. -/
theorem resolve_path_cname_not_retained :
    orTruthyD none (get_canonical_custom_domain (proj c3Env 1)) =
      some { domain := "chi.example.com", canonical := true, https := false } ∧
    get_canonical_custom_domain (proj c3Env 0) = none ∧
    (resolvePathWalk c3Env "en" 2
      { current_project := 1
        project_slug := "chi"
        subproject_slug := none
        language := "en"
        cname := orTruthyD none (get_canonical_custom_domain (proj c3Env 1)) }).cname =
      none ∧
    resolve_path devSettings c3Env 1 "f.html" none none false false none =
      "/docs/par/projects/sub/en/latest/f.html" :=
  ⟨rfl, rfl, rfl, rfl⟩

/-- C3 amended: when the current project of the walk has a subproject
relation, `cname` is *unconditionally* reassigned to the relation parent's
first canonical domain — absent when the parent has none — discarding the
previously established cname. -/
theorem resolve_path_subproject_cname_overwrite (env : Env) (la : String) (k : Nat)
    (st : PathWalkState) (r : ProjectRelationship)
    (h1 : (proj env st.current_project).main_language_project = none)
    (h2 : (proj env st.current_project).parent_relation = some r) :
    resolvePathWalk env la (k + 1) st =
      resolvePathWalk env la k
        { current_project := r.parent
          project_slug := (proj env r.parent).slug
          subproject_slug := some r.«alias»
          language := st.language
          cname := (proj env r.parent).domains.find? (fun d => d.canonical) } := by
  simp [resolvePathWalk, h1, h2]

theorem resolve_path_subproject_cname_overwrite_witness :
    (proj c3Env 1).main_language_project = none ∧
    (proj c3Env 1).parent_relation = some ⟨0, "sub"⟩ ∧
    resolvePathWalk c3Env "en" 2
      ⟨1, "chi", none, "en", some { domain := "chi.example.com", canonical := true, https := false }⟩ =
      resolvePathWalk c3Env "en" 1
        ⟨0, (proj c3Env 0).slug, some "sub", "en",
          (proj c3Env 0).domains.find? (fun d => d.canonical)⟩ :=
  ⟨rfl, rfl,
   resolve_path_subproject_cname_overwrite c3Env "en" 1
     ⟨1, "chi", none, "en", some { domain := "chi.example.com", canonical := true, https := false }⟩
     ⟨0, "sub"⟩ rfl rfl⟩

/-- C9: whenever the walk's current project has a translation parent, the
iteration switches the active slug to the parent's slug, resets the
language to the *original* project's language (`project.language` of the
input project — not the parent's language and not the caller-supplied
language, which is discarded from the state), and clears any pending
subproject alias. -/
theorem resolve_path_translation_resets_language (env : Env) (pid k : Nat)
    (st : PathWalkState) (m : Nat)
    (h : (proj env st.current_project).main_language_project = some m) :
    resolvePathWalk env (proj env pid).language (k + 1) st =
      resolvePathWalk env (proj env pid).language k
        { current_project := m
          project_slug := (proj env m).slug
          subproject_slug := none
          language := (proj env pid).language
          cname := st.cname } := by
  simp [resolvePathWalk, h]

theorem resolve_path_translation_resets_language_witness :
    (proj chainEnv 2).main_language_project = some 1 ∧
    resolvePathWalk chainEnv (proj chainEnv 3).language 1 ⟨2, "two", some "x", "fr", none⟩ =
      resolvePathWalk chainEnv (proj chainEnv 3).language 0
        ⟨1, (proj chainEnv 1).slug, none, (proj chainEnv 3).language, none⟩ :=
  ⟨rfl,
   resolve_path_translation_resets_language chainEnv 3 0
     ⟨2, "two", some "x", "fr", none⟩ 1 rfl⟩

end RTD
